import Mathlib

/-! Shallow embedding of the ChillMCP state manager
(src/chillmcp/state.py with constants from src/chillmcp/config.py).

Python ints are modelled as Int.  Every counter mutation in the source
happens inside one critical section of the single lock, so each
lock-protected block is embedded as one sequential function giving the
exact effect of that critical section; interleavings of the three
mutation sources are then the Step relation below.  The one piece of the
source that runs OUTSIDE the lock, the running-flag check with which a
ticker callback decides to re-arm itself, gets its own finer-grained
interleaving model (RaceState) so that shutdown races can be examined
faithfully. -/

namespace ChillMCP

/-- Default value of DEFAULT_STRESS_LEVEL in config.py (the frozen
ChillMCPSettings class; environment overrides are out of scope). -/
def DEFAULT_STRESS_LEVEL : Int := 50

def MIN_STRESS_LEVEL : Int := 0

def MAX_STRESS_LEVEL : Int := 100

def DEFAULT_BOSS_ALERT_LEVEL : Int := 0

def MIN_BOSS_ALERT_LEVEL : Int := 0

def MAX_BOSS_ALERT_LEVEL : Int := 5

def DEFAULT_BOSS_ALERTNESS : Int := 50

def MIN_BOSS_ALERTNESS : Int := 0

def MAX_BOSS_ALERTNESS : Int := 100

def DEFAULT_BOSS_ALERTNESS_COOLDOWN : Int := 300

def STRESS_INCREASE_INTERVAL : Int := 60

def MAX_ALERT_DELAY : Int := 20

/-- ChillState from state.py: the TypedDict snapshot returned by the
current_state property. -/
structure ChillState where
  stress_level : Int
  boss_alert_level : Int
deriving DecidableEq

/-- ChillStateManager from state.py.  The two threading.Timer fields are
modelled by Bool flags saying whether a not-yet-fired (pending) timer
exists; the threading.Lock itself needs no field because each embedded
operation is one critical section. -/
structure ChillStateManager where
  stress_level : Int
  boss_alert_level : Int
  boss_alertness : Int
  boss_alertness_cooldown : Int
  is_running : Bool
  stress_timer_armed : Bool
  boss_alert_timer_armed : Bool
deriving DecidableEq

/-- The _clamp helper of ChillStateManager: max(lower, min(upper, val)). -/
def clamp (val lower upper : Int) : Int := max lower (min upper val)

/-- The constructor of ChillStateManager: counters at their defaults,
boss_alertness clamped into [MIN_BOSS_ALERTNESS, MAX_BOSS_ALERTNESS],
the cooldown stored exactly as passed (no validation in the source),
and both timers started.  The source constructor has no exception
path, which the total return type reflects. -/
def init (boss_alertness boss_alertness_cooldown : Int) : ChillStateManager :=
  { stress_level := DEFAULT_STRESS_LEVEL
    boss_alert_level := DEFAULT_BOSS_ALERT_LEVEL
    boss_alertness := clamp boss_alertness MIN_BOSS_ALERTNESS MAX_BOSS_ALERTNESS
    boss_alertness_cooldown := boss_alertness_cooldown
    is_running := true
    stress_timer_armed := true
    boss_alert_timer_armed := true }

/-- The _increase_stress timer callback, as one sequential step: the
pending timer has fired (consuming its arm), the lock body increments
stress_level when it is below MAX_STRESS_LEVEL, and afterwards the
callback re-arms a fresh timer exactly when _is_running holds. -/
def increase_stress (s : ChillStateManager) : ChillStateManager :=
  let stress' :=
    if s.stress_level < MAX_STRESS_LEVEL then s.stress_level + 1 else s.stress_level
  { s with stress_level := stress', stress_timer_armed := s.is_running }

/-- The _decrease_boss_alert timer callback, symmetric to
increase_stress on boss_alert_level. -/
def decrease_boss_alert (s : ChillStateManager) : ChillStateManager :=
  let alert' :=
    if s.boss_alert_level > MIN_BOSS_ALERT_LEVEL then s.boss_alert_level - 1
    else s.boss_alert_level
  { s with boss_alert_level := alert', boss_alert_timer_armed := s.is_running }

/-- The shutdown method: set _is_running to False and cancel both
timers (a cancelled pending timer never fires, so its arm is cleared). -/
def shutdown (s : ChillStateManager) : ChillStateManager :=
  { s with is_running := false
           stress_timer_armed := false
           boss_alert_timer_armed := false }

/-- The current_state property body: under the lock it builds a fresh
ChillState value from the two counters and returns it; no field of the
manager is assigned, which the returned pair (snapshot, unchanged
manager) makes explicit. -/
def current_state (s : ChillStateManager) : ChillState × ChillStateManager :=
  (⟨s.stress_level, s.boss_alert_level⟩, s)

/-- Result of one take_a_break call: the time slept inside the lock,
the returned (stress_level, boss_alert_level) pair and the manager
state after the call. -/
structure BreakResult where
  delay : Int
  ret : Int × Int
  state : ChillStateManager
deriving DecidableEq

/-- The take_a_break method, with the two random.randint(1, 100) draws
passed in explicitly (r1 the stress reduction, r2 the alert roll).
Inside the lock: sleep MAX_ALERT_DELAY when boss_alert_level is at
least MAX_BOSS_ALERT_LEVEL; set stress_level to the clamp of
stress_level - r1; when r2 is at most boss_alertness set
boss_alert_level to the clamp of boss_alert_level + 1; return the two
counters as mutated. -/
def take_a_break (s : ChillStateManager) (r1 r2 : Int) : BreakResult :=
  let delay := if s.boss_alert_level ≥ MAX_BOSS_ALERT_LEVEL then MAX_ALERT_DELAY else 0
  let stress' := clamp (s.stress_level - r1) MIN_STRESS_LEVEL MAX_STRESS_LEVEL
  let alert' :=
    if r2 ≤ s.boss_alertness then
      clamp (s.boss_alert_level + 1) MIN_BOSS_ALERT_LEVEL MAX_BOSS_ALERT_LEVEL
    else s.boss_alert_level
  { delay := delay
    ret := (stress', alert')
    state := { s with stress_level := stress', boss_alert_level := alert' } }

/-- Iterated take_a_break calls over a list of draw pairs. -/
def run_breaks (s : ChillStateManager) : List (Int × Int) → ChillStateManager
  | [] => s
  | (r1, r2) :: rest => run_breaks (take_a_break s r1 r2).state rest

/-- One atomic transition of the manager: a firing of either ticker, a
take_a_break call with draws in [1, 100] as random.randint produces, or
a shutdown call.  Because every counter access of the source is inside
the single lock, any concurrent interleaving of these sources acts on
the counters as some sequence of such transitions. -/
inductive Step : ChillStateManager → ChillStateManager → Prop
  | stressTick (s : ChillStateManager) : Step s (increase_stress s)
  | alertTick (s : ChillStateManager) : Step s (decrease_boss_alert s)
  | takeBreak (s : ChillStateManager) (r1 r2 : Int)
      (h1 : 1 ≤ r1) (h1' : r1 ≤ 100) (h2 : 1 ≤ r2) (h2' : r2 ≤ 100) :
      Step s (take_a_break s r1 r2).state
  | shutdownCall (s : ChillStateManager) : Step s (shutdown s)

/-- States reachable from a freshly constructed manager with the given
constructor arguments, under any interleaving of transitions. -/
inductive Reachable (a c : Int) : ChillStateManager → Prop
  | init : Reachable a c (ChillMCP.init a c)
  | step {s t : ChillStateManager} : Reachable a c s → Step s t → Reachable a c t

/-- Position of an in-flight ticker callback in the part of
_increase_stress (equally _decrease_boss_alert) that runs outside the
lock: idle means no callback in flight, inBody means the timer fired
and the locked mutation is running or done, willRearm means the
callback has already read _is_running as True and is about to call its
start method. -/
inductive CbStage where
  | idle
  | inBody
  | willRearm
deriving DecidableEq

/-- Fine-grained state for the shutdown-versus-reschedule race of one
ticker: the lifecycle flag, whether a pending timer exists, the stage
of the in-flight callback, and whether a shutdown call has returned. -/
structure RaceState where
  is_running : Bool
  timer_armed : Bool
  stage : CbStage
  shutdown_done : Bool
deriving DecidableEq

/-- Atomic events of the race model. -/
inductive RaceLabel where
  | fire
  | readRunning
  | rearm
  | shutdownCall
deriving DecidableEq

/-- One atomic event of the race model, following the source line by
line.  fire: a pending timer pops and the callback runs its locked
mutation (the counters do not matter here).  readRunning: the callback,
now outside the lock as in the source, reads _is_running.  rearm: a
callback that read True creates and starts a fresh timer.
shutdownCall: the whole shutdown body; the source takes no lock there,
and even treating it as one atomic event (which only shrinks the set of
interleavings) the race below remains. -/
def raceStep (s : RaceState) : RaceLabel → RaceState
  | .fire =>
      if s.timer_armed ∧ s.stage = CbStage.idle then
        { s with timer_armed := false, stage := CbStage.inBody }
      else s
  | .readRunning =>
      if s.stage = CbStage.inBody then
        if s.is_running then { s with stage := CbStage.willRearm }
        else { s with stage := CbStage.idle }
      else s
  | .rearm =>
      if s.stage = CbStage.willRearm then
        { s with timer_armed := true, stage := CbStage.idle }
      else s
  | .shutdownCall =>
      { s with is_running := false, timer_armed := false, shutdown_done := true }

/-- Race-model state right after construction: running, one pending
timer, no callback in flight, shutdown not yet called. -/
def raceInit : RaceState :=
  { is_running := true, timer_armed := true, stage := CbStage.idle,
    shutdown_done := false }

/-- Run a sequence of race-model events. -/
def raceRun (s : RaceState) (ls : List RaceLabel) : RaceState := ls.foldl raceStep s

/-- Clamping with ordered bounds lands inside the bounds. -/
lemma clamp_bounds (v lo hi : Int) (h : lo ≤ hi) :
    lo ≤ clamp v lo hi ∧ clamp v lo hi ≤ hi :=
  ⟨le_max_left _ _, max_le h (min_le_left _ _)⟩

/-- C2: for every pair of draws, take_a_break sets stress_level to the
pre-call stress_level minus the first draw, clamped into [0, 100]; it
raises boss_alert_level by 1 clamped into [0, 5] exactly when the
second draw is at most boss_alertness, otherwise leaves it unchanged;
and it returns the post-mutation counter pair. -/
theorem take_a_break_effect (s : ChillStateManager) (r1 r2 : Int) :
    (take_a_break s r1 r2).state.stress_level =
      max 0 (min 100 (s.stress_level - r1)) ∧
    (take_a_break s r1 r2).state.boss_alert_level =
      (if r2 ≤ s.boss_alertness then max 0 (min 5 (s.boss_alert_level + 1))
       else s.boss_alert_level) ∧
    (take_a_break s r1 r2).ret =
      ((take_a_break s r1 r2).state.stress_level,
       (take_a_break s r1 r2).state.boss_alert_level) :=
  ⟨rfl, rfl, rfl⟩

/-- C5: a take_a_break call sleeps the fixed MAX_ALERT_DELAY exactly
when boss_alert_level is already at its maximum 5 on entry; the slept
amount is a function of the entry state alone, so the gate is not
re-checked after the mutations, and a call entered below 5 sleeps 0. -/
theorem take_a_break_delay_gate (s : ChillStateManager) (r1 r2 : Int)
    (h : s.boss_alert_level ≤ MAX_BOSS_ALERT_LEVEL) :
    (take_a_break s r1 r2).delay =
      if s.boss_alert_level = MAX_BOSS_ALERT_LEVEL then MAX_ALERT_DELAY else 0 := by
  have hd : (take_a_break s r1 r2).delay =
      if s.boss_alert_level ≥ MAX_BOSS_ALERT_LEVEL then MAX_ALERT_DELAY else 0 := rfl
  rw [hd]
  unfold MAX_BOSS_ALERT_LEVEL at *
  by_cases h5 : s.boss_alert_level = 5
  · simp [h5]
  · have hlt : ¬ (s.boss_alert_level ≥ 5) := by omega
    simp [h5, hlt]

/-- Witness for C5: a manager whose alert level sits at the maximum. -/
theorem take_a_break_delay_gate_witness :
    (take_a_break ⟨80, 5, 50, 300, true, true, true⟩ 30 70).delay =
      if (5 : Int) = MAX_BOSS_ALERT_LEVEL then MAX_ALERT_DELAY else 0 :=
  take_a_break_delay_gate ⟨80, 5, 50, 300, true, true, true⟩ 30 70 (by decide)

/-- C7: one stress-ticker firing adds exactly 1 below 100 and nothing
at 100; one alert-ticker firing subtracts exactly 1 above 0 and
nothing at 0; a single firing never moves its counter by more than 1. -/
theorem ticker_fire_unit_change (s : ChillStateManager) :
    (s.stress_level < 100 →
      (increase_stress s).stress_level = s.stress_level + 1) ∧
    (s.stress_level = 100 →
      (increase_stress s).stress_level = s.stress_level) ∧
    (0 < s.boss_alert_level →
      (decrease_boss_alert s).boss_alert_level = s.boss_alert_level - 1) ∧
    (s.boss_alert_level = 0 →
      (decrease_boss_alert s).boss_alert_level = s.boss_alert_level) ∧
    |(increase_stress s).stress_level - s.stress_level| ≤ 1 ∧
    |(decrease_boss_alert s).boss_alert_level - s.boss_alert_level| ≤ 1 := by
  have h1 : (increase_stress s).stress_level =
      if s.stress_level < 100 then s.stress_level + 1 else s.stress_level := rfl
  have h2 : (decrease_boss_alert s).boss_alert_level =
      if s.boss_alert_level > 0 then s.boss_alert_level - 1
      else s.boss_alert_level := rfl
  rw [h1, h2]
  refine ⟨?_, ?_, ?_, ?_, ?_, ?_⟩
  · intro h; simp [h]
  · intro h; simp [h]
  · intro h; simp [h]
  · intro h; simp [h]
  · rw [abs_le]; split <;> omega
  · rw [abs_le]; split <;> omega

/-- Witness for C7: at a concrete manager the stress ticker adds 1 and
the alert ticker subtracts 1. -/
theorem ticker_fire_unit_change_witness :
    (increase_stress ⟨50, 3, 50, 300, true, true, true⟩).stress_level = 50 + 1 ∧
    (decrease_boss_alert ⟨50, 3, 50, 300, true, true, true⟩).boss_alert_level = 3 - 1 :=
  ⟨(ticker_fire_unit_change ⟨50, 3, 50, 300, true, true, true⟩).1 (by decide),
   (ticker_fire_unit_change ⟨50, 3, 50, 300, true, true, true⟩).2.2.1 (by decide)⟩

/-- C8: shutdown clears the running flag and both timer arms, and it is
idempotent: a second shutdown call leaves the state after the first
one unchanged. -/
theorem shutdown_idempotent (s : ChillStateManager) :
    (shutdown s).is_running = false ∧
    (shutdown s).stress_timer_armed = false ∧
    (shutdown s).boss_alert_timer_armed = false ∧
    shutdown (shutdown s) = shutdown s :=
  ⟨rfl, rfl, rfl, rfl⟩

/-- C9: current_state returns a freshly built snapshot equal to the
counter pair and hands back the manager with every field unchanged;
the snapshot is a value of its own, not a view of the live state. -/
theorem current_state_pure_copy (s : ChillStateManager) :
    (current_state s).1 = ⟨s.stress_level, s.boss_alert_level⟩ ∧
    (current_state s).2 = s :=
  ⟨rfl, rfl⟩

/-- C10: with the stress draw at least 1, as random.randint(1, 100)
guarantees, take_a_break never raises stress_level, and strictly
lowers it whenever the pre-call stress_level is positive. -/
theorem take_a_break_stress_monotone (s : ChillStateManager) (r1 r2 : Int)
    (h0 : 0 ≤ s.stress_level) (hr : 1 ≤ r1) :
    (take_a_break s r1 r2).state.stress_level ≤ s.stress_level ∧
    (0 < s.stress_level →
      (take_a_break s r1 r2).state.stress_level < s.stress_level) := by
  have hst : (take_a_break s r1 r2).state.stress_level =
      max 0 (min 100 (s.stress_level - r1)) := rfl
  refine ⟨?_, ?_⟩
  · rw [hst]
    exact max_le h0 (le_trans (min_le_right _ _) (by omega))
  · intro hpos
    rw [hst]
    exact max_lt hpos (lt_of_le_of_lt (min_le_right _ _) (by omega))

/-- Witness for C10: a break from positive stress strictly lowers it. -/
theorem take_a_break_stress_monotone_witness :
    (take_a_break ⟨50, 0, 50, 300, true, true, true⟩ 30 70).state.stress_level ≤ 50 ∧
    (0 < (50 : Int) →
      (take_a_break ⟨50, 0, 50, 300, true, true, true⟩ 30 70).state.stress_level < 50) :=
  take_a_break_stress_monotone ⟨50, 0, 50, 300, true, true, true⟩ 30 70
    (by decide) (by decide)

/-- Helper for C1: the counter bounds are preserved by every single
transition. -/
lemma step_preserves_bounds {s t : ChillStateManager} (hstep : Step s t)
    (ih : 0 ≤ s.stress_level ∧ s.stress_level ≤ 100 ∧
      0 ≤ s.boss_alert_level ∧ s.boss_alert_level ≤ 5) :
    0 ≤ t.stress_level ∧ t.stress_level ≤ 100 ∧
    0 ≤ t.boss_alert_level ∧ t.boss_alert_level ≤ 5 := by
  rcases ih with ⟨i1, i2, i3, i4⟩
  cases hstep with
  | stressTick =>
    have h1 : (increase_stress s).stress_level =
        if s.stress_level < 100 then s.stress_level + 1 else s.stress_level := rfl
    have h2 : (increase_stress s).boss_alert_level = s.boss_alert_level := rfl
    rw [h1, h2]
    split <;> omega
  | alertTick =>
    have h1 : (decrease_boss_alert s).stress_level = s.stress_level := rfl
    have h2 : (decrease_boss_alert s).boss_alert_level =
        if s.boss_alert_level > 0 then s.boss_alert_level - 1
        else s.boss_alert_level := rfl
    rw [h1, h2]
    split <;> omega
  | takeBreak r1 r2 hr1 hr1' hr2 hr2' =>
    have h1 : (take_a_break s r1 r2).state.stress_level =
        max 0 (min 100 (s.stress_level - r1)) := rfl
    have h2 : (take_a_break s r1 r2).state.boss_alert_level =
        if r2 ≤ s.boss_alertness then max 0 (min 5 (s.boss_alert_level + 1))
        else s.boss_alert_level := rfl
    rw [h1, h2]
    split <;> omega
  | shutdownCall =>
    exact ⟨i1, i2, i3, i4⟩

/-- C1: every reachable state keeps stress_level inside [0, 100] and
boss_alert_level inside [0, 5], under any interleaving of stress-ticker
firings, alert-ticker firings, take_a_break calls and shutdown. -/
theorem reachable_counters_bounded (a c : Int) (s : ChillStateManager)
    (h : Reachable a c s) :
    0 ≤ s.stress_level ∧ s.stress_level ≤ 100 ∧
    0 ≤ s.boss_alert_level ∧ s.boss_alert_level ≤ 5 := by
  induction h with
  | init =>
    refine ⟨?_, ?_, ?_, ?_⟩ <;>
      norm_num [init, DEFAULT_STRESS_LEVEL, DEFAULT_BOSS_ALERT_LEVEL]
  | step hr hstep ih =>
    exact step_preserves_bounds hstep ih

/-- Witness for C1 at the freshly constructed manager with the default
alertness and cooldown. -/
theorem reachable_counters_bounded_witness :
    0 ≤ (init 50 300).stress_level ∧ (init 50 300).stress_level ≤ 100 ∧
    0 ≤ (init 50 300).boss_alert_level ∧ (init 50 300).boss_alert_level ≤ 5 :=
  reachable_counters_bounded 50 300 (init 50 300) Reachable.init

/-- C3 failing trace, evaluated on the race model: the stress ticker
fires and completes its locked mutation, reads _is_running as True
(this read sits outside the lock in the source), then a shutdown call
runs in full and returns; the callback then re-arms a fresh timer.
After shutdown has returned a pending timer still exists, so a ticker
fires later.  The source checks the flag after releasing the guard and
shutdown takes no lock at all, which is what the claim rules out. -/
theorem shutdown_reschedule_race :
    (raceRun raceInit
      [RaceLabel.fire, RaceLabel.readRunning, RaceLabel.shutdownCall,
       RaceLabel.rearm]).shutdown_done = true ∧
    (raceRun raceInit
      [RaceLabel.fire, RaceLabel.readRunning, RaceLabel.shutdownCall,
       RaceLabel.rearm]).timer_armed = true := by
  decide

/-- C4 failing input, evaluated on the constructor: building a manager
with cooldown 0 (or -7) raises nothing, stores the non-positive
cooldown unchanged instead of coercing it to 1, and arms the
alert-decay timer, whose period is exactly that stored cooldown. -/
theorem init_cooldown_unvalidated :
    (init 50 0).boss_alertness_cooldown = 0 ∧
    (init 50 0).boss_alert_timer_armed = true ∧
    (init 50 (-7)).boss_alertness_cooldown = -7 := by
  decide

/-- Helper for C6: with alertness 0 and every second draw at least 1,
a sequence of take_a_break calls leaves boss_alert_level where it was. -/
lemma run_breaks_alert_zero (draws : List (Int × Int)) :
    ∀ s : ChillStateManager, s.boss_alertness = 0 → (∀ p ∈ draws, 1 ≤ p.2) →
    (run_breaks s draws).boss_alert_level = s.boss_alert_level := by
  induction draws with
  | nil => intro s _ _; rfl
  | cons p rest ih =>
    intro s h0 hd
    obtain ⟨q1, q2⟩ := p
    have hq2 : 1 ≤ q2 := hd (q1, q2) (List.mem_cons_self _ _)
    have halert : (take_a_break s q1 q2).state.boss_alertness = 0 := h0
    have hstep : (take_a_break s q1 q2).state.boss_alert_level =
        s.boss_alert_level := by
      have hb : (take_a_break s q1 q2).state.boss_alert_level =
          if q2 ≤ s.boss_alertness then max 0 (min 5 (s.boss_alert_level + 1))
          else s.boss_alert_level := rfl
      rw [hb, h0]
      have : ¬ (q2 ≤ (0 : Int)) := by omega
      simp [this]
    have htail := ih (take_a_break s q1 q2).state halert
      (fun p hp => hd p (List.mem_cons_of_mem _ hp))
    calc (run_breaks s ((q1, q2) :: rest)).boss_alert_level
        = (run_breaks (take_a_break s q1 q2).state rest).boss_alert_level := rfl
      _ = (take_a_break s q1 q2).state.boss_alert_level := htail
      _ = s.boss_alert_level := hstep

/-- C6: with boss_alertness 0 no sequence of take_a_break calls, with
second draws in the range random.randint yields, ever moves
boss_alert_level; with boss_alertness 100 a single call raises it by
exactly 1, saturating at 5. -/
theorem alertness_extremes (s : ChillStateManager) (draws : List (Int × Int))
    (r1 r2 : Int) (hd : ∀ p ∈ draws, 1 ≤ p.2) (hr2 : r2 ≤ 100)
    (ha : 0 ≤ s.boss_alert_level) :
    (s.boss_alertness = 0 →
      (run_breaks s draws).boss_alert_level = s.boss_alert_level) ∧
    (s.boss_alertness = 100 →
      (take_a_break s r1 r2).state.boss_alert_level =
        min (s.boss_alert_level + 1) 5) := by
  refine ⟨fun h0 => run_breaks_alert_zero draws s h0 hd, fun h100 => ?_⟩
  have hb : (take_a_break s r1 r2).state.boss_alert_level =
      if r2 ≤ s.boss_alertness then max 0 (min 5 (s.boss_alert_level + 1))
      else s.boss_alert_level := rfl
  rw [hb, h100]
  simp only [if_pos hr2]
  omega

/-- Witness for C6 at a manager built with alertness 0 and a concrete
draw list. -/
theorem alertness_extremes_witness :
    ((init 0 300).boss_alertness = 0 →
      (run_breaks (init 0 300) [(3, 4), (60, 99)]).boss_alert_level =
        (init 0 300).boss_alert_level) ∧
    ((init 0 300).boss_alertness = 100 →
      (take_a_break (init 0 300) 10 7).state.boss_alert_level =
        min ((init 0 300).boss_alert_level + 1) 5) :=
  alertness_extremes (init 0 300) [(3, 4), (60, 99)] 10 7
    (by decide) (by decide) (by decide)

end ChillMCP
